import Mathlib

/-!
Verification of the HotSkills read-through caching and time-series reshaping
layer.  The Python source (FastAPI handlers in `app/api/*.py`, `app/web/pages.py`,
the Redis helpers in `helpers.py` and the config constants in `app/core/config.py`)
is shallowly embedded below: JSON payloads become the inductive `Json`,
the Redis cache becomes an explicit `RedisState` (with failure-injection flags
for the error-handling claims), snapshot tables become lists of timestamped
rows, and each handler becomes a pure function returning a `HandlerTrace`
that records the HTTP outcome, the Snapshot Store queries issued, the cache
writes attempted (with their TTLs) and the final cache state.
Timestamps are seconds since the epoch (`Nat`); a calendar date is the day
number `ts / 86400`, so `date::date` casts become `dateOf`.
-/

namespace HotSkills

/-- JSON values, as produced by `json.dumps` / consumed by `json.loads` in the
source.  Numbers are modelled as integers (the tracked metrics are counts and
salary bounds). -/
inductive Json where
  | null : Json
  | bool (b : Bool) : Json
  | num (n : Int) : Json
  | str (s : String) : Json
  | arr (elems : List Json) : Json
  | obj (fields : List (String × Json)) : Json

/-- Decimal digits of a natural, fuel-indexed accumulator style (the rendering
used inside the model of `json.dumps` and of Python `str(...)`; the exact
digit characters are not load-bearing, only that a number never serializes to
the empty string). -/
def natDigitsAux : Nat → Nat → List Char → List Char
  | 0, _, acc => acc
  | fuel+1, n, acc =>
    if n = 0 then acc
    else natDigitsAux fuel (n / 10) (Char.ofNat (48 + n % 10) :: acc)

/-- Decimal digits of a natural number (`n` itself is always enough fuel). -/
def natDigits (n : Nat) : List Char := natDigitsAux n n []

/-- Decimal rendering of a natural number. -/
def natRepr (n : Nat) : String :=
  if n = 0 then "0" else String.mk (natDigits n)

/-- Decimal rendering of an integer. -/
def intRepr (n : Int) : String :=
  if n < 0 then "-" ++ natRepr n.natAbs else natRepr n.natAbs

mutual

/-- Model of `json.dumps` (string escaping elided: the handlers only ever test
the serialized bytes for emptiness, and deserialization is modelled by storing
the structured value alongside). -/
def Json.dumps : Json → String
  | .null => "null"
  | .bool true => "true"
  | .bool false => "false"
  | .num n => intRepr n
  | .str s => "\"" ++ s ++ "\""
  | .arr elems => "[" ++ Json.dumpsList elems ++ "]"
  | .obj fields => "\x7b" ++ Json.dumpsFields fields ++ "\x7d"

/-- Comma-joined serialization of a JSON array body. -/
def Json.dumpsList : List Json → String
  | [] => ""
  | [j] => Json.dumps j
  | j :: rest => Json.dumps j ++ ", " ++ Json.dumpsList rest

/-- Comma-joined serialization of a JSON object body. -/
def Json.dumpsFields : List (String × Json) → String
  | [] => ""
  | [(k, v)] => "\"" ++ k ++ "\": " ++ Json.dumps v
  | (k, v) :: rest => "\"" ++ k ++ "\": " ++ Json.dumps v ++ ", " ++ Json.dumpsFields rest

end

/-- Python truthiness of a deserialized JSON value (`if cached_statistics:`,
`if not skills:` and similar guards in the handlers test exactly this). -/
def Json.truthy : Json → Bool
  | .null => false
  | .bool b => b
  | .num n => n != 0
  | .str s => s != ""
  | .arr elems => !elems.isEmpty
  | .obj fields => !fields.isEmpty

theorem natDigitsAux_length (fuel : Nat) :
    ∀ (n : Nat) (acc : List Char), acc.length ≤ (natDigitsAux fuel n acc).length := by
  induction fuel with
  | zero => intro n acc; simp [natDigitsAux]
  | succ fuel ih =>
    intro n acc
    rw [natDigitsAux]
    split
    · exact Nat.le_refl _
    · calc acc.length ≤ (Char.ofNat (48 + n % 10) :: acc).length := by simp
        _ ≤ _ := ih _ _

theorem string_ne_empty_of_length_pos {s : String} (h : 0 < s.length) : s ≠ "" := by
  intro he
  subst he
  simp [String.length] at h

theorem natRepr_ne_empty (n : Nat) : natRepr n ≠ "" := by
  unfold natRepr
  split
  · decide
  · rename_i hn
    apply string_ne_empty_of_length_pos
    match n, hn with
    | (m+1), _ =>
      show 0 < (String.mk (natDigits (m+1))).length
      have h1 : ([] : List Char).length + 1 ≤ (natDigits (m+1)).length := by
        rw [natDigits, natDigitsAux]
        simp only [Nat.succ_ne_zero, if_false]
        have := natDigitsAux_length m ((m+1) / 10) (Char.ofNat (48 + (m+1) % 10) :: [])
        simpa using this
      simp only [String.length]
      omega

theorem intRepr_ne_empty (n : Int) : intRepr n ≠ "" := by
  unfold intRepr
  split
  · apply string_ne_empty_of_length_pos
    rw [String.length_append]
    have : ("-").length = 1 := by decide
    omega
  · exact natRepr_ne_empty _

/-- The JSON serialization of any value is a nonempty string, hence any payload
present in Redis reads back as truthy bytes in `get_cache`. -/
theorem dumps_ne_empty (j : Json) : j.dumps ≠ "" := by
  cases j with
  | null => decide
  | bool b => cases b <;> decide
  | num n => exact intRepr_ne_empty n
  | str s =>
    apply string_ne_empty_of_length_pos
    rw [Json.dumps, String.length_append, String.length_append]
    have : ("\"").length = 1 := by decide
    omega
  | arr elems =>
    apply string_ne_empty_of_length_pos
    rw [Json.dumps, String.length_append, String.length_append]
    have : ("[").length = 1 := by decide
    omega
  | obj fields =>
    apply string_ne_empty_of_length_pos
    rw [Json.dumps, String.length_append, String.length_append]
    have : ("\x7b").length = 1 := by decide
    omega

/-! ### Cache Store (Redis) -/

/-- One Redis entry: key, stored payload (kept structured; the bytes on the
wire are `value.dumps`) and the TTL the entry was written with (`none` = no
expiry, mirroring `ex=None`).  TTL expiry is passive: an entry present in
`entries` is one whose TTL window has not elapsed. -/
structure CacheEntry where
  key : String
  value : Json
  ttl : Option Nat

/-- The Cache Store state, with failure-injection flags used to model
`redis.exceptions.RedisError` being raised by `get`/`set`. -/
structure RedisState where
  entries : List CacheEntry
  getFails : Bool
  setFails : Bool

/-- The payload currently stored under a key, if any. -/
def cacheLookup (r : RedisState) (key : String) : Option Json :=
  (r.entries.find? (fun e => e.key == key)).map (fun e => e.value)

/-- Raw `redis_pool.get(key)`: raises `RedisError` when the store is down,
otherwise returns the (bytes of the) first entry stored under `key`. -/
def redisGet (r : RedisState) (key : String) : Except String (Option Json) :=
  if r.getFails then .error "RedisError"
  else .ok (cacheLookup r key)

/-- Raw `redis_pool.set(key, bytes, ex=ttl)`: raises `RedisError` when the
store is down, otherwise overwrites the entry under `key`. -/
def redisSet (r : RedisState) (key : String) (v : Json) (ttl : Option Nat) :
    Except String RedisState :=
  if r.setFails then .error "RedisError"
  else .ok { r with entries := ⟨key, v, ttl⟩ :: r.entries.filter (fun e => e.key != key) }

/-- Embedding of `helpers.get_cache`: reads the raw bytes, and when they are
truthy (a nonempty string) returns `json.loads` of them, else `None`.  The
Redis read is not guarded, so a `RedisError` propagates out. -/
def get_cache (r : RedisState) (key : String) : Except String (Option Json) :=
  match redisGet r key with
  | .error e => .error e
  | .ok none => .ok none
  | .ok (some v) => if v.dumps ≠ "" then .ok (some v) else .ok none

/-- Embedding of `helpers.set_cache`: `redis_pool.set` wrapped in
`try/except RedisError`, so a failed write is logged and swallowed. -/
def set_cache (r : RedisState) (key : String) (v : Json) (expire : Option Nat) : RedisState :=
  match redisSet r key v expire with
  | .error _ => r
  | .ok r' => r'

/-- Cache TTL constants from `app/core/config.py`. -/
def CACHE_TTL_HOUR : Nat := 3600

/-- 24 hours, from `app/core/config.py`. -/
def CACHE_TTL_DAY : Nat := 86400

/-- No expiry, from `app/core/config.py`. -/
def CACHE_TTL_NO_EXPIRY : Option Nat := none

/-! ### Snapshot Store rows and the Series Reducer -/

/-- A snapshot row: the `date` column (a timestamp, in seconds) plus the
numeric metric columns (`row[column]` is looked up by column name). -/
structure Row where
  ts : Nat
  vals : List (String × Int)
deriving DecidableEq

/-- Column access `row[column]`. -/
def Row.val (r : Row) (c : String) : Int :=
  ((r.vals.find? (fun kv => kv.1 == c)).map (fun kv => kv.2)).getD 0

/-- Calendar date of a timestamp (the `date::date` cast): its day number. -/
def dateOf (ts : Nat) : Nat := ts / 86400

/-- The `WHERE date >= NOW() - INTERVAL '24 hours'` window (written additively
since timestamps are naturals). -/
def window24 (now : Nat) (rows : List Row) : List Row :=
  rows.filter (fun r => decide (now ≤ r.ts + 86400))

/-- The `WHERE date >= NOW() - INTERVAL '30 days'` window. -/
def window30 (now : Nat) (rows : List Row) : List Row :=
  rows.filter (fun r => decide (now ≤ r.ts + 30 * 86400))

/-- Ordering of rows by their timestamp, for `ORDER BY date ASC`. -/
def Row.le (a b : Row) : Prop := a.ts ≤ b.ts

instance : DecidableRel Row.le := fun a b => Nat.decLe a.ts b.ts

instance : IsTotal Row Row.le := ⟨fun a b => Nat.le_total a.ts b.ts⟩

instance : IsTrans Row Row.le := ⟨fun _ _ _ h h' => Nat.le_trans h h'⟩

/-- Embedding of `fetch_hourly`: all rows of the 24-hour window, ordered by
timestamp ascending (a stable sort, giving the deterministic tie-break the
spec requires). -/
def fetchHourly (now : Nat) (rows : List Row) : List Row :=
  List.insertionSort Row.le (window24 now rows)

/-- The distinct calendar dates present in a set of rows, ascending — the
`PARTITION BY date::date` groups in `ORDER BY date` order. -/
def datesOf (w : List Row) : List Nat :=
  List.insertionSort (· ≤ ·) ((w.map (fun r => dateOf r.ts)).dedup)

/-- The `ROW_NUMBER() ... ORDER BY date DESC ... WHERE rn = 1` pick: the row
with the latest timestamp on calendar date `d` (first such row on a tie, a
deterministic choice within the implementation-defined SQL tie-break). -/
def pickLatest (w : List Row) (d : Nat) : Option Row :=
  (w.filter (fun r => dateOf r.ts == d)).argmax (fun r => r.ts)

/-- Embedding of `fetch_daily`: for each calendar date of the 30-day window,
the latest row on that date, in ascending date order. -/
def fetchDaily (now : Nat) (rows : List Row) : List Row :=
  (datesOf (window30 now rows)).filterMap (pickLatest (window30 now rows))

/-- The daily series of one metric: `[[str(row["date"]), row[column]] ...]`
over the deduplicated daily rows, with the date label kept as a day number. -/
def dailySeries (c : String) (now : Nat) (rows : List Row) : List (Nat × Int) :=
  (fetchDaily now rows).map (fun r => (dateOf r.ts, r.val c))

/-- The hourly series of one metric: one point per windowed row. -/
def hourlySeries (c : String) (now : Nat) (rows : List Row) : List (Nat × Int) :=
  (fetchHourly now rows).map (fun r => (r.ts, r.val c))

/-! ### Aggregate Resolver handlers -/

/-- One Snapshot Store query issued by a handler: the windowed+dedup daily
query, the windowed hourly query (each with its table and requested metric
columns), or a single-row `fetchrow` query recorded by its SQL text. -/
inductive DbCall where
  | daily (table : String) (columns : List String)
  | hourly (table : String) (columns : List String)
  | row (sql : String)
deriving DecidableEq

/-- The metric columns a Snapshot Store query was parameterized with. -/
def DbCall.columns : DbCall → List String
  | .daily _ cols => cols
  | .hourly _ cols => cols
  | .row _ => []

/-- What a handler invocation produced: an HTTP response with a status code
and a JSON body (for the language page, the template context rendered into
HTML), or an exception that escaped the handler. -/
inductive Outcome where
  | response (status : Nat) (body : Json)
  | exn (e : String)

/-- Observable behaviour of one handler invocation: its outcome, the Snapshot
Store queries it issued in order, the cache writes it attempted (key, payload,
TTL) and the final Cache Store state. -/
structure HandlerTrace where
  outcome : Outcome
  dbCalls : List DbCall
  writes : List CacheEntry
  redis : RedisState

/-- The Snapshot Store tables used by `get_vacancy_statistics`; `fail = some e`
models every query raising `asyncpg.exceptions.PostgresError(e)`. -/
structure VacDB where
  languagesRows : List Row
  professionsRows : List Row
  fail : Option String

/-- The cache key `f"vacancy-statistics:{query or 'all'}"` (an empty-string
query is falsy in Python and also maps to `all`). -/
def vacancyCacheKey (query : Option String) : String :=
  "vacancy-statistics:" ++
    (match query with
     | some q => if q ≠ "" then q else "all"
     | none => "all")

/-- The per-column loop of `get_stat`: skip a column when a truthy `query` is
set and differs from it, else emit `\x7bdaily, hourly\x7d` series for it. -/
def seriesFor (query : Option String) (daily hourly : List Row) (columns : List String) :
    List (String × Json) :=
  columns.filterMap (fun column =>
    if (match query with
        | some q => decide (q ≠ "") && decide (q ≠ column)
        | none => false) then none
    else some (column, Json.obj [
      ("daily", .arr (daily.map (fun r =>
        .arr [.str (natRepr (dateOf r.ts)), .num (r.val column)]))),
      ("hourly", .arr (hourly.map (fun r =>
        .arr [.str (natRepr r.ts), .num (r.val column)])))]))

/-- `dict.update`: existing keys keep their position but take the new value,
new keys are appended. -/
def dictUpdate (a b : List (String × Json)) : List (String × Json) :=
  a.map (fun kv =>
    match b.find? (fun kv2 => kv2.1 == kv.1) with
    | some kv2 => (kv.1, kv2.2)
    | none => kv)
  ++ b.filter (fun kv2 => !(a.any (fun kv => kv.1 == kv2.1)))

/-- Whether `query in langs or query is None` holds (the guard on the
languages-table `get_stat`). -/
def vacancyCondLangs (langs : List String) (query : Option String) : Bool :=
  langs.any (fun l => query == some l) || query == none

/-- Whether `query in ["software_developer", None]` holds (the guard on the
professions-table `get_stat`). -/
def vacancyCondProf (query : Option String) : Bool :=
  query == some "software_developer" || query == none

/-- The aggregate assembled by `get_vacancy_statistics` on a cache miss with a
healthy Snapshot Store: an empty dict updated with the languages `get_stat`
and then the professions `get_stat`, each under its guard. -/
def vacancyComputed (db : VacDB) (langs : List String) (query : Option String) (now : Nat) :
    Json :=
  let statLangs := seriesFor query (fetchDaily now db.languagesRows)
    (fetchHourly now db.languagesRows) langs
  let statProf := seriesFor query (fetchDaily now db.professionsRows)
    (fetchHourly now db.professionsRows) ["software_developer"]
  let result1 := if vacancyCondLangs langs query then dictUpdate [] statLangs else []
  let result2 := if vacancyCondProf query then dictUpdate result1 statProf else result1
  .obj result2

/-- The Snapshot Store queries `get_vacancy_statistics` issues on a cache miss
with a healthy store: daily then hourly per executed `get_stat`, languages
table first, the column list being `', '.join(columns)` of the full set
passed in. -/
def vacancyCalls (langs : List String) (query : Option String) : List DbCall :=
  (if vacancyCondLangs langs query then
    [DbCall.daily "vacancies_statistics.languages" langs,
     DbCall.hourly "vacancies_statistics.languages" langs]
   else [])
  ++ (if vacancyCondProf query then
    [DbCall.daily "vacancies_statistics.professions" ["software_developer"],
     DbCall.hourly "vacancies_statistics.professions" ["software_developer"]]
   else [])

/-- The success tail of the vacancy-statistics miss path: compute the result,
cache it for `CACHE_TTL_HOUR`, return it as JSON. -/
def vacancyOk (redis : RedisState) (db : VacDB) (langs : List String) (query : Option String)
    (now : Nat) (key : String) : HandlerTrace :=
  let result := vacancyComputed db langs query now
  ⟨.response 200 result, vacancyCalls langs query,
   [⟨key, result, some CACHE_TTL_HOUR⟩],
   set_cache redis key result (some CACHE_TTL_HOUR)⟩

/-- The cache-miss path of `get_vacancy_statistics`.  When the Snapshot Store
fails, the first executed fetch raises `PostgresError`, which the handler
turns into a 500 JSON error without touching the cache; when no `get_stat`
guard fires, no query runs at all and the (empty) result is still cached and
returned. -/
def vacancyMiss (redis : RedisState) (db : VacDB) (langs : List String) (query : Option String)
    (now : Nat) (key : String) : HandlerTrace :=
  match db.fail with
  | some e =>
    if vacancyCondLangs langs query then
      ⟨.response 500 (.obj [("error", .str e)]),
       [DbCall.daily "vacancies_statistics.languages" langs], [], redis⟩
    else if vacancyCondProf query then
      ⟨.response 500 (.obj [("error", .str e)]),
       [DbCall.daily "vacancies_statistics.professions" ["software_developer"]], [], redis⟩
    else vacancyOk redis db langs query now key
  | none => vacancyOk redis db langs query now key

/-- Embedding of `get_vacancy_statistics` (`app/api/vacancy_statistics.py`):
read-through cache keyed on `(kind, filter)`, truthiness-gated cache hit,
otherwise the miss path. -/
def vacancyHandler (redis : RedisState) (db : VacDB) (langs : List String)
    (query : Option String) (now : Nat) : HandlerTrace :=
  match get_cache redis (vacancyCacheKey query) with
  | .error e => ⟨.exn e, [], [], redis⟩
  | .ok (some v) =>
    if v.truthy then ⟨.response 200 v, [], [], redis⟩
    else vacancyMiss redis db langs query now (vacancyCacheKey query)
  | .ok none => vacancyMiss redis db langs query now (vacancyCacheKey query)

/-- The cache-miss tail of `get_languages` (`app/api/languages.py`): serve the
startup language list and cache it with no expiry. -/
def languagesMiss (redis : RedisState) (languages : Json) : HandlerTrace :=
  ⟨.response 200 languages, [],
   [⟨"languages", languages, CACHE_TTL_NO_EXPIRY⟩],
   set_cache redis "languages" languages CACHE_TTL_NO_EXPIRY⟩

/-- Embedding of `get_languages`: a cache lookup under the fixed key
`"languages"`, then the miss tail.  The language list itself comes from
`app.state.languages`, loaded once at startup. -/
def languagesHandler (redis : RedisState) (languages : Json) : HandlerTrace :=
  match get_cache redis "languages" with
  | .error e => ⟨.exn e, [], [], redis⟩
  | .ok (some v) =>
    if v.truthy then ⟨.response 200 v, [], [], redis⟩
    else languagesMiss redis languages
  | .ok none => languagesMiss redis languages

/-- One row of the `salaries` table: its `date` plus the other columns as the
dict `dict(row)` deserializes to. -/
structure SalRow where
  ts : Nat
  fields : List (String × Json)

/-- The `salaries` table; `fail = some e` models the query raising
`PostgresError(e)`. -/
structure SalDB where
  rows : List SalRow
  fail : Option String

/-- The SQL text of the salaries single-row query. -/
def salariesSql : String := "SELECT * FROM salaries ORDER BY date DESC LIMIT 1"

/-- `ORDER BY date DESC LIMIT 1`: the row with the maximal `date` (first such
row on a tie). -/
def salariesLastRow (db : SalDB) : Option SalRow :=
  db.rows.argmax (fun r => r.ts)

/-- Removal of a key from a dict (`dict.pop(key, None)`). -/
def popKey (d : List (String × Json)) (k : String) : List (String × Json) :=
  d.filter (fun kv => kv.1 != k)

/-- The cache-miss path of `get_salaries`: fetch the latest row (500 on
`PostgresError`), convert to a dict (empty when the table is empty), strip the
`date` field, cache for an hour and return. -/
def salariesMiss (redis : RedisState) (db : SalDB) : HandlerTrace :=
  match db.fail with
  | some e => ⟨.response 500 (.obj [("error", .str e)]), [.row salariesSql], [], redis⟩
  | none =>
    let d := match salariesLastRow db with
      | some r => popKey (("date", Json.str (natRepr r.ts)) :: r.fields) "date"
      | none => []
    let result := Json.obj d
    ⟨.response 200 result, [.row salariesSql],
     [⟨"salaries", result, some CACHE_TTL_HOUR⟩],
     set_cache redis "salaries" result (some CACHE_TTL_HOUR)⟩

/-- Embedding of `get_salaries` (`app/api/salaries.py`): read-through cache
under the fixed key `"salaries"`, then the miss path. -/
def salariesHandler (redis : RedisState) (db : SalDB) : HandlerTrace :=
  match get_cache redis "salaries" with
  | .error e => ⟨.exn e, [], [], redis⟩
  | .ok (some v) =>
    if v.truthy then ⟨.response 200 v, [], [], redis⟩
    else salariesMiss redis db
  | .ok none => salariesMiss redis db

/-! ### Language page (`show_lang_page`) -/

/-- A `hot_skills` column value as the database returns it: SQL `NULL`, the
empty string, or a JSON document (kept structured; its raw text is the
serialization, so the text is empty exactly when the value is `emptyStr`). -/
inductive ColVal where
  | null : ColVal
  | emptyStr : ColVal
  | jsonVal (v : Json) : ColVal

/-- Python truthiness of the raw column value (`if skill_row and
skill_row[row["code"]]:`). -/
def ColVal.truthy : ColVal → Bool
  | .null => false
  | .emptyStr => false
  | .jsonVal v => v.dumps != ""

/-- A row of `programming_languages` as selected by the page handler. -/
structure LangRow where
  code : String
  name : String

/-- The tables the language page reads: the language reference table and the
`hot_skills` snapshots (one row per collection `date`, one column per
language code). -/
structure SkillsDB where
  programmingLanguages : List LangRow
  hotSkillsRows : List (Nat × List (String × ColVal))

/-- Column access on a `hot_skills` row (a missing column reads as `NULL`). -/
def hotSkillsVal (cols : List (String × ColVal)) (c : String) : ColVal :=
  ((cols.find? (fun kv => kv.1 == c)).map (fun kv => kv.2)).getD .null

/-- Model of Python `str.lower()`, applied to the URL path parameter before
the language lookup. -/
def strLower (s : String) : String := String.mk (s.data.map Char.toLower)

/-- The SQL text of the language lookup query. -/
def langLookupSql : String := "SELECT code, name FROM programming_languages WHERE code = $1"

/-- The SQL text of the latest-skills query (the column name is interpolated). -/
def hotSkillsSql (code : String) : String :=
  "SELECT " ++ code ++ " FROM hot_skills ORDER BY date DESC LIMIT 1"

/-- The `lang.html` template context the page is rendered from. -/
def pageBody (row : LangRow) (skills : Json) : Json :=
  .obj [("code", .str row.code), ("name", .str row.name), ("skills", skills)]

/-- The language's column of the latest `hot_skills` row (`ORDER BY date DESC
LIMIT 1`, first row on a timestamp tie): `none` when the table is empty. -/
def latestSkillVal (db : SkillsDB) (code : String) : Option ColVal :=
  (db.hotSkillsRows.argmax (fun r => r.1)).map (fun sr => hotSkillsVal sr.2 code)

/-- The cache-miss tail of `show_lang_page`: read the latest `hot_skills` row;
when it exists and the language's column is truthy (`if skill_row and
skill_row[row["code"]]:`), deserialize it, cache it for 24 hours and render
it; otherwise render an empty skill list and write nothing. -/
def showLangMiss (redis : RedisState) (db : SkillsDB) (row : LangRow) : HandlerTrace :=
  let key := "skills:" ++ row.code
  let calls := [DbCall.row langLookupSql, DbCall.row (hotSkillsSql row.code)]
  match latestSkillVal db row.code with
  | some (.jsonVal v) =>
    if v.dumps != "" then
      ⟨.response 200 (pageBody row v), calls,
       [⟨key, v, some CACHE_TTL_DAY⟩],
       set_cache redis key v (some CACHE_TTL_DAY)⟩
    else ⟨.response 200 (pageBody row (.arr [])), calls, [], redis⟩
  | _ => ⟨.response 200 (pageBody row (.arr [])), calls, [], redis⟩

/-- Embedding of `show_lang_page` (`app/web/pages.py`; `src/main.py` has the
same behaviour with the raw Redis calls inlined): look up the language
(404 when unknown), then serve the per-language skill list through the
`skills:<code>` cache, falling back to the latest `hot_skills` row. -/
def showLangPage (redis : RedisState) (db : SkillsDB) (lang : String) : HandlerTrace :=
  match db.programmingLanguages.find? (fun r => r.code == strLower lang) with
  | none => ⟨.response 404 (.str "page not found"), [.row langLookupSql], [], redis⟩
  | some row =>
    match get_cache redis ("skills:" ++ row.code) with
    | .error e => ⟨.exn e, [.row langLookupSql], [], redis⟩
    | .ok (some v) =>
      if v.truthy then
        ⟨.response 200 (pageBody row v), [.row langLookupSql], [], redis⟩
      else showLangMiss redis db row
    | .ok none => showLangMiss redis db row

/-! ### Salary range formatting (spec-modelled) -/

/-- Modelled from the spec: the literal "no data" marker for a `(0,0)` salary
bound pair.  The formatting consumer of the salary aggregate is not under
`src/` (the handler there serves the flat record variant), so this component
follows §4.1 of the spec. -/
def NO_DATA_MARKER : String := "no data"

/-- Modelled from the spec: rounding a salary bound to the nearest 100
(ties rounded up). -/
def roundNearest100 (n : Nat) : Nat := ((n + 50) / 100) * 100

/-- Modelled from the spec: the localized range string for a pair of already
rounded salary bounds. -/
def rangeString (lo hi : Nat) : String := natRepr lo ++ " — " ++ natRepr hi

/-- Modelled from the spec: rendering of one salary bound pair — the literal
no-data marker for `(0,0)`, otherwise both bounds rounded to the nearest 100
and formatted as a range string. -/
def formatSalaryPair (lo hi : Nat) : String :=
  if lo = 0 ∧ hi = 0 then NO_DATA_MARKER
  else rangeString (roundNearest100 lo) (roundNearest100 hi)

/-! ### Helper lemmas about the cache interface and the handler structure -/

/-- With a healthy Redis connection, `get_cache` returns exactly the stored
payload: the stored bytes are a JSON serialization, which is never the empty
string, so the truthiness test on the bytes succeeds iff the key is present. -/
theorem get_cache_ok {r : RedisState} (key : String) (hg : r.getFails = false) :
    get_cache r key = .ok (cacheLookup r key) := by
  unfold get_cache redisGet
  rw [hg]
  cases h : cacheLookup r key with
  | none => simp
  | some v => simp [dumps_ne_empty v]

theorem vacancyHandler_hit {redis : RedisState} {db : VacDB} {langs : List String}
    {query : Option String} {now : Nat} {v : Json}
    (hg : redis.getFails = false)
    (hv : cacheLookup redis (vacancyCacheKey query) = some v)
    (ht : v.truthy = true) :
    vacancyHandler redis db langs query now = ⟨.response 200 v, [], [], redis⟩ := by
  unfold vacancyHandler
  rw [get_cache_ok _ hg, hv]
  simp [ht]

theorem vacancyHandler_miss {redis : RedisState} {db : VacDB} {langs : List String}
    {query : Option String} {now : Nat}
    (hg : redis.getFails = false)
    (hm : ∀ v, cacheLookup redis (vacancyCacheKey query) = some v → v.truthy = false) :
    vacancyHandler redis db langs query now
      = vacancyMiss redis db langs query now (vacancyCacheKey query) := by
  unfold vacancyHandler
  rw [get_cache_ok _ hg]
  cases h : cacheLookup redis (vacancyCacheKey query) with
  | none => rfl
  | some v => simp [hm v h]

theorem salariesHandler_hit {redis : RedisState} {db : SalDB} {v : Json}
    (hg : redis.getFails = false)
    (hv : cacheLookup redis "salaries" = some v)
    (ht : v.truthy = true) :
    salariesHandler redis db = ⟨.response 200 v, [], [], redis⟩ := by
  unfold salariesHandler
  rw [get_cache_ok _ hg, hv]
  simp [ht]

theorem salariesHandler_miss {redis : RedisState} {db : SalDB}
    (hg : redis.getFails = false)
    (hm : ∀ v, cacheLookup redis "salaries" = some v → v.truthy = false) :
    salariesHandler redis db = salariesMiss redis db := by
  unfold salariesHandler
  rw [get_cache_ok _ hg]
  cases h : cacheLookup redis "salaries" with
  | none => rfl
  | some v => simp [hm v h]

/-! ### C1 — cache-hit short-circuit -/

/-- C1 (counterexample): the claim "a populated key is served from cache with
no Snapshot Store query, whatever payload was stored, including an empty
aggregate" is false on the code.  Resolving `salaries` against an empty table
populates the key `"salaries"` with the empty aggregate; a subsequent resolve
of the same key within the TTL window finds the entry, but the deserialized
empty dict is falsy, so the handler treats it as a miss and issues the
Snapshot Store query again. -/
theorem cacheHit_empty_aggregate_requeries :
    (salariesHandler ⟨[], false, false⟩ ⟨[], none⟩).writes
        = [⟨"salaries", Json.obj [], some CACHE_TTL_HOUR⟩]
    ∧ cacheLookup (salariesHandler ⟨[], false, false⟩ ⟨[], none⟩).redis "salaries"
        = some (Json.obj [])
    ∧ (salariesHandler (salariesHandler ⟨[], false, false⟩ ⟨[], none⟩).redis ⟨[], none⟩).dbCalls
        = [.row salariesSql] :=
  ⟨rfl, rfl, rfl⟩

/-- C1 (amended): for every populated aggregate key whose stored payload
deserializes to a truthy (non-empty) value, a subsequent resolve of the same
`(kind, filter)` within the TTL window returns the cached payload immediately,
with no Snapshot Store query and no cache write; a payload that deserializes
to an empty aggregate is instead treated as a cache miss. -/
theorem cacheHit_truthy_payload_short_circuits
    (redis : RedisState) (db : VacDB) (sdb : SalDB) (langs : List String)
    (query : Option String) (now : Nat) (v w : Json)
    (hg : redis.getFails = false)
    (hv : cacheLookup redis (vacancyCacheKey query) = some v) (htv : v.truthy = true)
    (hw : cacheLookup redis "salaries" = some w) (htw : w.truthy = true) :
    vacancyHandler redis db langs query now = ⟨.response 200 v, [], [], redis⟩
    ∧ salariesHandler redis sdb = ⟨.response 200 w, [], [], redis⟩ :=
  ⟨vacancyHandler_hit hg hv htv, salariesHandler_hit hg hw htw⟩

/-- A concrete populated cache used to witness the amended C1 theorem. -/
def populatedRedis : RedisState :=
  ⟨[⟨"vacancy-statistics:python", Json.obj [("python", Json.null)], some 3600⟩,
    ⟨"salaries", Json.obj [("python_moscow_min", Json.num 100000)], some 3600⟩],
   false, false⟩

/-- C1 (witness): the amended theorem applied to a cache populated with a
non-empty vacancy aggregate and a non-empty salaries record. -/
theorem cacheHit_truthy_payload_short_circuits_witness :
    populatedRedis.getFails = false
    ∧ cacheLookup populatedRedis (vacancyCacheKey (some "python"))
        = some (Json.obj [("python", Json.null)])
    ∧ (Json.obj [("python", Json.null)]).truthy = true
    ∧ cacheLookup populatedRedis "salaries"
        = some (Json.obj [("python_moscow_min", Json.num 100000)])
    ∧ (Json.obj [("python_moscow_min", Json.num 100000)]).truthy = true
    ∧ vacancyHandler populatedRedis ⟨[], [], none⟩ ["python"] (some "python") 0
        = ⟨.response 200 (Json.obj [("python", Json.null)]), [], [], populatedRedis⟩
    ∧ salariesHandler populatedRedis ⟨[], none⟩
        = ⟨.response 200 (Json.obj [("python_moscow_min", Json.num 100000)]), [], [],
           populatedRedis⟩ :=
  ⟨rfl, rfl, rfl, rfl, rfl,
   (cacheHit_truthy_payload_short_circuits populatedRedis ⟨[], [], none⟩ ⟨[], none⟩ ["python"]
      (some "python") 0 (Json.obj [("python", Json.null)])
      (Json.obj [("python_moscow_min", Json.num 100000)]) rfl rfl rfl rfl rfl).1,
   (cacheHit_truthy_payload_short_circuits populatedRedis ⟨[], [], none⟩ ⟨[], none⟩ ["python"]
      (some "python") 0 (Json.obj [("python", Json.null)])
      (Json.obj [("python_moscow_min", Json.num 100000)]) rfl rfl rfl rfl rfl).2⟩

/-! ### C2 — query parameterization under a single-metric filter -/

/-- C2 (counterexample): the claim "with a known single-metric filter the
Snapshot Store queries are parameterized with exactly that one metric column"
is false on the code: resolving with filter `python` against the language set
`python, java` issues queries parameterized with the full language column
set, not with the single column. -/
theorem singleMetricFilter_full_columns_cx :
    ¬ ∀ c ∈ (vacancyHandler ⟨[], false, false⟩ ⟨[], [], none⟩ ["python", "java"]
        (some "python") 0).dbCalls, c.columns = ["python"] := by decide

/-- C2 (amended): when the filter is a known language code, the cache-miss
Snapshot Store queries are the daily and hourly languages-table queries
parameterized with the full language column set; the restriction to the one
filtered column happens afterwards, while assembling the aggregate.  (Only
for the profession filter do the issued queries carry exactly one column.) -/
theorem languageFilter_queries_full_language_set
    (redis : RedisState) (db : VacDB) (langs : List String) (q : String) (now : Nat)
    (hg : redis.getFails = false)
    (hm : ∀ v, cacheLookup redis (vacancyCacheKey (some q)) = some v → v.truthy = false)
    (hfail : db.fail = none)
    (hq : q ∈ langs) (hsd : q ≠ "software_developer") :
    (vacancyHandler redis db langs (some q) now).dbCalls
      = [.daily "vacancies_statistics.languages" langs,
         .hourly "vacancies_statistics.languages" langs] := by
  have hcl : vacancyCondLangs langs (some q) = true := by
    unfold vacancyCondLangs
    rw [Bool.or_eq_true, List.any_eq_true]
    exact Or.inl ⟨q, hq, by simp⟩
  have hcp : vacancyCondProf (some q) = false := by
    unfold vacancyCondProf
    simp [hsd]
  rw [vacancyHandler_miss hg hm]
  unfold vacancyMiss
  rw [hfail]
  unfold vacancyOk vacancyCalls
  rw [hcl, hcp]
  simp

/-- C2 (witness): the amended theorem applied to the filter `python` with
language set `python, java` on a cold cache. -/
theorem languageFilter_queries_full_language_set_witness :
    ("python" ∈ ["python", "java"])
    ∧ (vacancyHandler ⟨[], false, false⟩ ⟨[], [], none⟩ ["python", "java"]
        (some "python") 0).dbCalls
      = [.daily "vacancies_statistics.languages" ["python", "java"],
         .hourly "vacancies_statistics.languages" ["python", "java"]] :=
  ⟨by decide,
   languageFilter_queries_full_language_set ⟨[], false, false⟩ ⟨[], [], none⟩
     ["python", "java"] "python" 0 rfl (fun _ h => Option.noConfusion h) rfl
     (by decide) (by decide)⟩

/-! ### C4 — Cache Store failure recovery -/

/-- C4 (counterexample): the claim "every Cache Store failure, on read or on
write, is recovered locally and the Snapshot Store result is still returned"
is false on the code: `get_cache` does not guard the Redis read, so a failed
cache read propagates as an unhandled `RedisError` — no Snapshot Store query
runs and no result is returned. -/
theorem cacheReadFailure_not_recovered_cx :
    (vacancyHandler ⟨[], true, false⟩ ⟨[], [], none⟩ ["python"] none 0).outcome
        = .exn "RedisError"
    ∧ (vacancyHandler ⟨[], true, false⟩ ⟨[], [], none⟩ ["python"] none 0).dbCalls = []
    ∧ ∀ s b, (vacancyHandler ⟨[], true, false⟩ ⟨[], [], none⟩ ["python"] none 0).outcome
        ≠ .response s b :=
  ⟨rfl, rfl, fun _ _ h => Outcome.noConfusion h⟩

/-- C4 (amended): a failed Cache Store *write* is recovered locally —
`set_cache` swallows the `RedisError`, the cache is left unchanged, and the
correctly computed Snapshot Store result is still returned to the caller.  A
failed cache *read*, however, is not caught and propagates as an error. -/
theorem cacheWriteFailure_recovered
    (redis : RedisState) (db : VacDB) (langs : List String) (query : Option String) (now : Nat)
    (hg : redis.getFails = false)
    (hm : ∀ v, cacheLookup redis (vacancyCacheKey query) = some v → v.truthy = false)
    (hset : redis.setFails = true) (hfail : db.fail = none) :
    (vacancyHandler redis db langs query now).outcome
      = .response 200 (vacancyComputed db langs query now)
    ∧ (vacancyHandler redis db langs query now).redis = redis := by
  rw [vacancyHandler_miss hg hm]
  unfold vacancyMiss
  rw [hfail]
  unfold vacancyOk set_cache redisSet
  rw [hset]
  simp

/-- C4 (witness): the amended theorem applied to a cold cache whose writes
fail, resolving the profession aggregate. -/
theorem cacheWriteFailure_recovered_witness :
    (vacancyHandler ⟨[], false, true⟩ ⟨[], [], none⟩ [] (some "software_developer") 0).outcome
      = .response 200 (vacancyComputed ⟨[], [], none⟩ [] (some "software_developer") 0)
    ∧ (vacancyHandler ⟨[], false, true⟩ ⟨[], [], none⟩ [] (some "software_developer") 0).redis
      = ⟨[], false, true⟩ :=
  cacheWriteFailure_recovered ⟨[], false, true⟩ ⟨[], [], none⟩ [] (some "software_developer") 0
    rfl (fun _ h => Option.noConfusion h) rfl rfl

/-! ### C5 — Snapshot Store failure surfaces as 500 and is never cached -/

/-- C5: when the Snapshot Store query of a cache-miss resolve fails with
`PostgresError`, both the vacancy-statistics and the salaries resolver return
the HTTP 500 error response, attempt no cache write, and leave the Cache
Store unchanged. -/
theorem snapshotFailure_500_no_cache_write
    (redis redis2 : RedisState) (db : VacDB) (sdb : SalDB) (langs : List String)
    (query : Option String) (now : Nat) (e e2 : String)
    (hg : redis.getFails = false)
    (hm : ∀ v, cacheLookup redis (vacancyCacheKey query) = some v → v.truthy = false)
    (hfail : db.fail = some e)
    (hq : vacancyCondLangs langs query = true ∨ vacancyCondProf query = true)
    (hg2 : redis2.getFails = false)
    (hm2 : ∀ v, cacheLookup redis2 "salaries" = some v → v.truthy = false)
    (hfail2 : sdb.fail = some e2) :
    ((vacancyHandler redis db langs query now).outcome
        = .response 500 (.obj [("error", .str e)])
      ∧ (vacancyHandler redis db langs query now).writes = []
      ∧ (vacancyHandler redis db langs query now).redis = redis)
    ∧ ((salariesHandler redis2 sdb).outcome = .response 500 (.obj [("error", .str e2)])
      ∧ (salariesHandler redis2 sdb).writes = []
      ∧ (salariesHandler redis2 sdb).redis = redis2) := by
  constructor
  · rw [vacancyHandler_miss hg hm]
    unfold vacancyMiss
    rw [hfail]
    rcases hq with h | h
    · rw [h]
      exact ⟨rfl, rfl, rfl⟩
    · cases hcl : vacancyCondLangs langs query
      · rw [h]
        exact ⟨rfl, rfl, rfl⟩
      · exact ⟨rfl, rfl, rfl⟩
  · rw [salariesHandler_miss hg2 hm2]
    unfold salariesMiss
    rw [hfail2]
    exact ⟨rfl, rfl, rfl⟩

/-- C5 (witness): the theorem applied to cold caches, a full resolve
(`query = None`) against a failing vacancies store and a failing salaries
store. -/
theorem snapshotFailure_500_no_cache_write_witness :
    (vacancyCondLangs ["python"] none = true ∨ vacancyCondProf none = true)
    ∧ ((vacancyHandler ⟨[], false, false⟩ ⟨[], [], some "PG down"⟩ ["python"] none 0).outcome
        = .response 500 (.obj [("error", .str "PG down")])
      ∧ (vacancyHandler ⟨[], false, false⟩ ⟨[], [], some "PG down"⟩ ["python"] none 0).writes = []
      ∧ (vacancyHandler ⟨[], false, false⟩ ⟨[], [], some "PG down"⟩ ["python"] none 0).redis
        = ⟨[], false, false⟩)
    ∧ ((salariesHandler ⟨[], false, false⟩ ⟨[], some "PG down"⟩).outcome
        = .response 500 (.obj [("error", .str "PG down")])
      ∧ (salariesHandler ⟨[], false, false⟩ ⟨[], some "PG down"⟩).writes = []
      ∧ (salariesHandler ⟨[], false, false⟩ ⟨[], some "PG down"⟩).redis
        = ⟨[], false, false⟩) :=
  ⟨Or.inl (by decide),
   (snapshotFailure_500_no_cache_write ⟨[], false, false⟩ ⟨[], false, false⟩
      ⟨[], [], some "PG down"⟩ ⟨[], some "PG down"⟩ ["python"] none 0 "PG down" "PG down"
      rfl (fun _ h => Option.noConfusion h) rfl (Or.inl (by decide))
      rfl (fun _ h => Option.noConfusion h) rfl).1,
   (snapshotFailure_500_no_cache_write ⟨[], false, false⟩ ⟨[], false, false⟩
      ⟨[], [], some "PG down"⟩ ⟨[], some "PG down"⟩ ["python"] none 0 "PG down" "PG down"
      rfl (fun _ h => Option.noConfusion h) rfl (Or.inl (by decide))
      rfl (fun _ h => Option.noConfusion h) rfl).2⟩

/-! ### C6 — unknown filter yields an empty aggregate, not an error -/

/-- C6: resolving the vacancy-series aggregate with a filter string that is
neither a known language code nor the profession tag succeeds with status 200
and an aggregate containing no metric keys: both `get_stat` guards are false,
so nothing is collected (and this holds whatever the Snapshot Store state,
since no query runs). -/
theorem unknownFilter_yields_empty_aggregate
    (redis : RedisState) (db : VacDB) (langs : List String) (q : String) (now : Nat)
    (hg : redis.getFails = false)
    (hm : ∀ v, cacheLookup redis (vacancyCacheKey (some q)) = some v → v.truthy = false)
    (hq1 : q ∉ langs) (hq2 : q ≠ "software_developer") :
    (vacancyHandler redis db langs (some q) now).outcome = .response 200 (.obj [])
    ∧ (vacancyHandler redis db langs (some q) now).dbCalls = [] := by
  have hcl : vacancyCondLangs langs (some q) = false := by
    unfold vacancyCondLangs
    rw [Bool.or_eq_false_iff, List.any_eq_false]
    refine ⟨fun l hl => ?_, by simp⟩
    simp only [beq_iff_eq, Option.some.injEq]
    exact fun hql => hq1 (hql ▸ hl)
  have hcp : vacancyCondProf (some q) = false := by
    unfold vacancyCondProf
    simp [hq2]
  rw [vacancyHandler_miss hg hm]
  unfold vacancyMiss
  cases db.fail with
  | some e =>
    rw [hcl, hcp]
    simp only [Bool.false_eq_true, if_false]
    unfold vacancyOk vacancyComputed vacancyCalls
    rw [hcl, hcp]
    exact ⟨rfl, rfl⟩
  | none =>
    unfold vacancyOk vacancyComputed vacancyCalls
    rw [hcl, hcp]
    exact ⟨rfl, rfl⟩

/-- C6 (witness): the theorem applied to the unknown filter `cobol` over the
language set `python, java`. -/
theorem unknownFilter_yields_empty_aggregate_witness :
    ("cobol" ∉ ["python", "java"])
    ∧ ((vacancyHandler ⟨[], false, false⟩ ⟨[], [], none⟩ ["python", "java"]
          (some "cobol") 0).outcome = .response 200 (.obj [])
      ∧ (vacancyHandler ⟨[], false, false⟩ ⟨[], [], none⟩ ["python", "java"]
          (some "cobol") 0).dbCalls = []) :=
  ⟨by decide,
   unknownFilter_yields_empty_aggregate ⟨[], false, false⟩ ⟨[], [], none⟩
     ["python", "java"] "cobol" 0 rfl (fun _ h => Option.noConfusion h)
     (by decide) (by decide)⟩

/-! ### C8 — TTL depends only on the aggregate kind -/

/-- C8: every cache write performed by the language-list resolver carries no
expiry (`CACHE_TTL_NO_EXPIRY`), and every cache write performed by the
vacancy-series resolver — whatever the filter — carries exactly the
configured one-hour TTL, on every path of either handler. -/
theorem ttl_depends_only_on_aggregate_kind
    (redis redis2 : RedisState) (languages : Json) (db : VacDB) (langs : List String)
    (query : Option String) (now : Nat) :
    (∀ w ∈ (languagesHandler redis languages).writes, w.ttl = CACHE_TTL_NO_EXPIRY)
    ∧ (∀ w ∈ (vacancyHandler redis2 db langs query now).writes,
        w.ttl = some CACHE_TTL_HOUR) := by
  have hmiss : ∀ key w, w ∈ (vacancyMiss redis2 db langs query now key).writes →
      w.ttl = some CACHE_TTL_HOUR := by
    intro key w hw
    unfold vacancyMiss at hw
    split at hw
    · split at hw
      · simp at hw
      · split at hw
        · simp at hw
        · simp only [vacancyOk, List.mem_singleton] at hw
          rw [hw]
    · simp only [vacancyOk, List.mem_singleton] at hw
      rw [hw]
  constructor
  · intro w hw
    unfold languagesHandler at hw
    split at hw
    · simp at hw
    · split at hw
      · simp at hw
      · simp only [languagesMiss, List.mem_singleton] at hw
        rw [hw]
    · simp only [languagesMiss, List.mem_singleton] at hw
      rw [hw]
  · intro w hw
    unfold vacancyHandler at hw
    split at hw
    · simp at hw
    · split at hw
      · simp at hw
      · exact hmiss _ _ hw
    · exact hmiss _ _ hw

/-- C8 (witness): the theorem applied to cold caches — the language-list
write carries no expiry, the vacancy-series write carries the one-hour TTL. -/
theorem ttl_depends_only_on_aggregate_kind_witness :
    ((⟨"languages", Json.arr [], CACHE_TTL_NO_EXPIRY⟩ : CacheEntry)
        ∈ (languagesHandler ⟨[], false, false⟩ (Json.arr [])).writes
      ∧ (⟨"languages", Json.arr [], CACHE_TTL_NO_EXPIRY⟩ : CacheEntry).ttl
        = CACHE_TTL_NO_EXPIRY)
    ∧ ((⟨"vacancy-statistics:all", vacancyComputed ⟨[], [], none⟩ [] none 0,
          some CACHE_TTL_HOUR⟩ : CacheEntry)
        ∈ (vacancyHandler ⟨[], false, false⟩ ⟨[], [], none⟩ [] none 0).writes
      ∧ (⟨"vacancy-statistics:all", vacancyComputed ⟨[], [], none⟩ [] none 0,
          some CACHE_TTL_HOUR⟩ : CacheEntry).ttl = some CACHE_TTL_HOUR) :=
  ⟨⟨List.mem_singleton_self _,
    (ttl_depends_only_on_aggregate_kind ⟨[], false, false⟩ ⟨[], false, false⟩
       (Json.arr []) ⟨[], [], none⟩ [] none 0).1 _ (List.mem_singleton_self _)⟩,
   ⟨List.mem_singleton_self _,
    (ttl_depends_only_on_aggregate_kind ⟨[], false, false⟩ ⟨[], false, false⟩
       (Json.arr []) ⟨[], [], none⟩ [] none 0).2 _ (List.mem_singleton_self _)⟩⟩

/-! ### C7 — salary range formatting (spec-modelled) -/

/-- C7: a `(0,0)` salary bound pair renders as the literal no-data marker, and
any other pair renders as a range string of two bounds that are multiples of
100 within distance 50 of the raw bounds — i.e. each bound rounded to the
nearest 100.  (The formatter is modelled from the spec; see
`formatSalaryPair`.) -/
theorem salaryPair_formatting (lo hi : Nat) (h : ¬(lo = 0 ∧ hi = 0)) :
    formatSalaryPair 0 0 = NO_DATA_MARKER
    ∧ ∃ lo' hi', formatSalaryPair lo hi = rangeString lo' hi'
        ∧ lo' % 100 = 0 ∧ hi' % 100 = 0
        ∧ lo' ≤ lo + 50 ∧ lo ≤ lo' + 50 ∧ hi' ≤ hi + 50 ∧ hi ≤ hi' + 50 := by
  refine ⟨rfl, roundNearest100 lo, roundNearest100 hi, ?_, ?_, ?_, ?_, ?_, ?_, ?_⟩
  · unfold formatSalaryPair
    rw [if_neg h]
  · exact Nat.mul_mod_left _ _
  · exact Nat.mul_mod_left _ _
  all_goals unfold roundNearest100; omega

/-- C7 (witness): the theorem applied to the spec's example pair
`(123456, 789012)`, which renders as `123500 — 789000`. -/
theorem salaryPair_formatting_witness :
    ¬((123456 : Nat) = 0 ∧ (789012 : Nat) = 0)
    ∧ (formatSalaryPair 0 0 = NO_DATA_MARKER
      ∧ ∃ lo' hi', formatSalaryPair 123456 789012 = rangeString lo' hi'
          ∧ lo' % 100 = 0 ∧ hi' % 100 = 0
          ∧ lo' ≤ 123456 + 50 ∧ 123456 ≤ lo' + 50 ∧ hi' ≤ 789012 + 50 ∧ 789012 ≤ hi' + 50) :=
  ⟨by decide, salaryPair_formatting 123456 789012 (by decide)⟩

/-! ### C10 — empty skill results are served empty and never cached -/

/-- C10: when the requested language resolves but the latest `hot_skills` row
is absent or its column for that language is null/empty, the page handler
renders an empty skill list, attempts no cache write (leaving the Cache Store
unchanged), and the `hot_skills` query was (re-)issued — so empty results hit
the Snapshot Store on every request. -/
theorem emptySkills_not_cached
    (redis : RedisState) (db : SkillsDB) (lang : String) (row : LangRow)
    (hfind : db.programmingLanguages.find? (fun r => r.code == strLower lang) = some row)
    (hg : redis.getFails = false)
    (hm : ∀ v, cacheLookup redis ("skills:" ++ row.code) = some v → v.truthy = false)
    (hempty : ∀ cv, latestSkillVal db row.code = some cv → cv.truthy = false) :
    (showLangPage redis db lang).outcome = .response 200 (pageBody row (.arr []))
    ∧ (showLangPage redis db lang).writes = []
    ∧ (showLangPage redis db lang).redis = redis
    ∧ DbCall.row (hotSkillsSql row.code) ∈ (showLangPage redis db lang).dbCalls := by
  have hmiss : showLangMiss redis db row
      = ⟨.response 200 (pageBody row (.arr [])),
         [DbCall.row langLookupSql, DbCall.row (hotSkillsSql row.code)], [], redis⟩ := by
    unfold showLangMiss
    cases hcv : latestSkillVal db row.code with
    | none => rfl
    | some cv =>
      have he := hempty cv hcv
      cases cv with
      | null => rfl
      | emptyStr => rfl
      | jsonVal v =>
        exact absurd (by simpa [ColVal.truthy] using he) (dumps_ne_empty v)
  have htrace : showLangPage redis db lang
      = ⟨.response 200 (pageBody row (.arr [])),
         [DbCall.row langLookupSql, DbCall.row (hotSkillsSql row.code)], [], redis⟩ := by
    unfold showLangPage
    rw [hfind]
    show (match get_cache redis ("skills:" ++ row.code) with
      | .error e => (⟨.exn e, [.row langLookupSql], [], redis⟩ : HandlerTrace)
      | .ok (some v) =>
        if v.truthy then (⟨.response 200 (pageBody row v), [.row langLookupSql], [], redis⟩ : HandlerTrace)
        else showLangMiss redis db row
      | .ok none => showLangMiss redis db row) = _
    rw [get_cache_ok _ hg]
    cases h : cacheLookup redis ("skills:" ++ row.code) with
    | none =>
      show showLangMiss redis db row = _
      exact hmiss
    | some v =>
      show (if v.truthy = true then _ else showLangMiss redis db row) = _
      rw [hm v h]
      simp only [Bool.false_eq_true, if_false]
      exact hmiss
  rw [htrace]
  exact ⟨rfl, rfl, rfl, by simp⟩

/-- C10 (witness): the theorem applied to the language `Go` (looked up as
`go`), a cold cache, and a `hot_skills` table whose latest row has a null
`go` column. -/
theorem emptySkills_not_cached_witness :
    ((⟨[⟨"go", "Go"⟩], [(5, [("go", ColVal.null)])]⟩ : SkillsDB).programmingLanguages.find?
        (fun r => r.code == strLower "Go") = some ⟨"go", "Go"⟩)
    ∧ (showLangPage ⟨[], false, false⟩ ⟨[⟨"go", "Go"⟩], [(5, [("go", ColVal.null)])]⟩ "Go").outcome
        = .response 200 (pageBody ⟨"go", "Go"⟩ (.arr []))
    ∧ (showLangPage ⟨[], false, false⟩ ⟨[⟨"go", "Go"⟩], [(5, [("go", ColVal.null)])]⟩ "Go").writes
        = []
    ∧ (showLangPage ⟨[], false, false⟩ ⟨[⟨"go", "Go"⟩], [(5, [("go", ColVal.null)])]⟩ "Go").redis
        = ⟨[], false, false⟩
    ∧ DbCall.row (hotSkillsSql "go")
        ∈ (showLangPage ⟨[], false, false⟩ ⟨[⟨"go", "Go"⟩],
            [(5, [("go", ColVal.null)])]⟩ "Go").dbCalls :=
  have h := emptySkills_not_cached ⟨[], false, false⟩
    ⟨[⟨"go", "Go"⟩], [(5, [("go", ColVal.null)])]⟩ "Go" ⟨"go", "Go"⟩
    rfl rfl (fun _ h => Option.noConfusion h)
    (fun cv hcv => by injection hcv with h'; rw [← h']; rfl)
  ⟨rfl, h.1, h.2.1, h.2.2.1, h.2.2.2⟩

/-! ### C9 — hourly series completeness -/

/-- C9: the hourly series of a metric has exactly one point per snapshot row
with `timestamp >= now - 24h`: its length equals the count of rows in the
24-hour window, it is a permutation of the windowed rows' points (no
deduplication — every windowed row appears), and it is listed in ascending
timestamp order. -/
theorem hourlySeries_one_point_per_windowed_row (rows : List Row) (now : Nat) (c : String) :
    (hourlySeries c now rows).length
      = (rows.filter (fun r => decide (now ≤ r.ts + 86400))).length
    ∧ (hourlySeries c now rows).Perm ((window24 now rows).map (fun r => (r.ts, r.val c)))
    ∧ List.Sorted (fun p q : Nat × Int => p.1 ≤ q.1) (hourlySeries c now rows) := by
  refine ⟨?_, ?_, ?_⟩
  · unfold hourlySeries fetchHourly window24
    rw [List.length_map, List.length_insertionSort]
  · exact (List.perm_insertionSort Row.le (window24 now rows)).map _
  · exact List.Pairwise.map _ (fun a b h => h)
      (List.sorted_insertionSort Row.le (window24 now rows))

/-! ### C3 — daily series deduplication -/

theorem pickLatest_mem {w : List Row} {d : Nat} {m : Row} (h : pickLatest w d = some m) :
    m ∈ w ∧ dateOf m.ts = d := by
  have hm := List.argmax_mem (Option.mem_def.mpr h)
  rw [List.mem_filter] at hm
  exact ⟨hm.1, by simpa using hm.2⟩

theorem datesOf_nodup (w : List Row) : (datesOf w).Nodup :=
  ((List.perm_insertionSort _ _).nodup_iff).mpr (List.nodup_dedup _)

theorem datesOf_sorted (w : List Row) : List.Sorted (· ≤ ·) (datesOf w) :=
  List.sorted_insertionSort _ _

theorem mem_datesOf {w : List Row} {d : Nat} :
    d ∈ datesOf w ↔ ∃ r ∈ w, dateOf r.ts = d := by
  unfold datesOf
  rw [(List.perm_insertionSort _ _).mem_iff, List.mem_dedup, List.mem_map]

theorem filterMap_label {α : Type} (p : Nat → Option α) (lab : α → Nat)
    (hp : ∀ d m, p d = some m → lab m = d) :
    ∀ ds : List Nat, (ds.filterMap p).map lab = ds.filter (fun d => (p d).isSome) := by
  intro ds
  induction ds with
  | nil => rfl
  | cons a ds ih =>
    cases hpa : p a with
    | none => simp [List.filterMap_cons, List.filter_cons, hpa, ih]
    | some m => simp [List.filterMap_cons, List.filter_cons, hpa, ih, hp a m hpa]

theorem dailySeries_labels (c : String) (now : Nat) (rows : List Row) :
    (dailySeries c now rows).map Prod.fst
      = (datesOf (window30 now rows)).filter
          (fun d => (pickLatest (window30 now rows) d).isSome) := by
  unfold dailySeries fetchDaily
  rw [List.map_map]
  exact filterMap_label _ _ (fun d m h => (pickLatest_mem h).2) _

/-- C3: for every calendar date of the 30-day window the daily series of a
metric holds at most one point for that date, the dates appear in strictly
ascending order, and the point kept for a date is the windowed row with the
maximal timestamp on that date (stated for a row that strictly dominates all
other rows of its date, which is what "the row with the maximum timestamp"
presupposes). -/
theorem dailySeries_unique_latest (rows : List Row) (now : Nat) (c : String) (d : Nat) :
    ((dailySeries c now rows).map Prod.fst).count d ≤ 1
    ∧ List.Sorted (· < ·) ((dailySeries c now rows).map Prod.fst)
    ∧ ∀ r ∈ window30 now rows, dateOf r.ts = d →
        (∀ r' ∈ window30 now rows, dateOf r'.ts = d → r' = r ∨ r'.ts < r.ts) →
        (d, r.val c) ∈ dailySeries c now rows := by
  have hnodup : ((dailySeries c now rows).map Prod.fst).Nodup := by
    rw [dailySeries_labels]
    exact (datesOf_nodup _).filter _
  refine ⟨?_, ?_, ?_⟩
  · exact List.nodup_iff_count_le_one.mp hnodup d
  · rw [dailySeries_labels] at hnodup ⊢
    exact List.Sorted.lt_of_le
      (List.Pairwise.sublist (List.filter_sublist _) (datesOf_sorted _)) hnodup
  · intro r hr hd huniq
    have hrf : r ∈ (window30 now rows).filter (fun r' => dateOf r'.ts == d) :=
      List.mem_filter.mpr ⟨hr, by simpa using hd⟩
    obtain ⟨m, hm⟩ : ∃ m, pickLatest (window30 now rows) d = some m := by
      cases hc : pickLatest (window30 now rows) d with
      | none =>
        unfold pickLatest at hc
        rw [List.argmax_eq_none] at hc
        rw [hc] at hrf
        exact absurd hrf (List.not_mem_nil r)
      | some m => exact ⟨m, rfl⟩
    have hmw := pickLatest_mem hm
    have hrm : r.ts ≤ m.ts := List.le_of_mem_argmax hrf (Option.mem_def.mpr hm)
    have hmr : m = r := by
      rcases huniq m hmw.1 hmw.2 with h | h
      · exact h
      · omega
    subst hmr
    have hmem : m ∈ fetchDaily now rows := by
      unfold fetchDaily
      exact List.mem_filterMap.mpr ⟨d, mem_datesOf.mpr ⟨m, hmw.1, hmw.2⟩, hm⟩
    unfold dailySeries
    exact List.mem_map.mpr ⟨m, hmem, by rw [hmw.2]⟩

/-- C3 (witness): two rows on the same calendar day; the daily series keeps
exactly the later row's value. -/
theorem dailySeries_unique_latest_witness :
    ((⟨86402, [("python", 7)]⟩ : Row)
        ∈ window30 86402 [⟨86401, [("python", 5)]⟩, ⟨86402, [("python", 7)]⟩])
    ∧ dateOf (86402 : Nat) = 1
    ∧ (∀ r' ∈ window30 86402 [⟨86401, [("python", 5)]⟩, ⟨86402, [("python", 7)]⟩],
        dateOf r'.ts = 1 → r' = (⟨86402, [("python", 7)]⟩ : Row) ∨ r'.ts < 86402)
    ∧ ((1 : Nat), (7 : Int))
        ∈ dailySeries "python" 86402 [⟨86401, [("python", 5)]⟩, ⟨86402, [("python", 7)]⟩] :=
  ⟨by decide, by decide, by decide,
   (dailySeries_unique_latest [⟨86401, [("python", 5)]⟩, ⟨86402, [("python", 7)]⟩]
      86402 "python" 1).2.2 ⟨86402, [("python", 7)]⟩ (by decide) (by decide) (by decide)⟩

end HotSkills
